import Mathlib

/-!
Verification development for the Pactum wallet payment core.

The Python sources embedded here:
- `packages/wallet/userop/builder.py` — ERC-4337 v0.7 user-operation hashing
  (`compute_user_op_hash`, `build_execute_batch_calldata`, ...);
- `packages/wallet/userop/bundler.py` — receipt polling (`wait_for_receipt`);
- `packages/wallet/services/payment.py` — the payment orchestrator
  (`pay`, `confirm_payment`, `_execute_payment`, `escrow_deposit`, `_check_limits`);
- `packages/wallet/chain/scanner.py` — the deposit scanner (`scan_deposits`).

External collaborators (the keccak hash and the web3 ABI encoders, the Supabase
store, the bundler RPC, the Privy signer) are modelled as explicit parameters /
oracles; everything the repository itself computes is embedded directly.
Byte strings are `List Nat` (each entry a byte value), monetary amounts are `Rat`
(the Python code uses floats; the claims only compare and add amounts),
timestamps are `Nat` seconds.
-/

namespace Pactum

/-- Byte strings: each entry is one byte value. -/
abbrev Bytes := List Nat

/-- Big-endian fixed-width encoding, as Python's `int.to_bytes(w, "big")`
(width `w` bytes, most significant first). -/
def natToBytesBE (w n : Nat) : Bytes :=
  (List.range w).map (fun i => n / 256 ^ (w - 1 - i) % 256)

/-- The 20-byte zero address, `"0x" + "00" * 20` in the Python source. -/
def zeroAddress20 : Bytes := List.replicate 20 0

/-- ABI head-encoding of an `address` argument: left-padded to a 32-byte word. -/
def abiAddressWord (a : Bytes) : Bytes := List.replicate 12 0 ++ a

/-- ABI head-encoding of a `uint256` argument: 32-byte big-endian word. -/
def abiUint256Word (n : Nat) : Bytes := natToBytesBE 32 n

/-- ERC-4337 v0.7 user operation, mirroring the dict built by
`build_user_operation` in `userop/builder.py`: `factory`/`paymaster` are
`None` (here `none`) until populated, other fields are hex-encoded numbers
or byte strings. -/
structure UserOp where
  sender : Bytes
  nonce : Nat
  factory : Option Bytes
  factoryData : Bytes
  callData : Bytes
  callGasLimit : Nat
  verificationGasLimit : Nat
  preVerificationGas : Nat
  maxFeePerGas : Nat
  maxPriorityFeePerGas : Nat
  signature : Bytes
  paymaster : Option Bytes
  paymasterData : Bytes
  paymasterVerificationGasLimit : Nat
  paymasterPostOpGasLimit : Nat
  deriving Repr, DecidableEq

/-- Source: `init_code` as assembled inside `compute_user_op_hash`:
`factory + factoryData` when a factory is present and is not the zero
address, empty otherwise (`if op.get("factory") and op["factory"] != "0x"+"00"*20`). -/
def userOpInitCode (op : UserOp) : Bytes :=
  match op.factory with
  | some f => if f ≠ zeroAddress20 then f ++ op.factoryData else []
  | none => []

/-- Source: `paymaster_and_data` as assembled inside `compute_user_op_hash`:
`paymaster + paymasterVerificationGasLimit (16B) + paymasterPostOpGasLimit (16B)
 + paymasterData` when sponsored, empty otherwise. -/
def userOpPaymasterAndData (op : UserOp) : Bytes :=
  match op.paymaster with
  | some pm =>
      pm ++ natToBytesBE 16 op.paymasterVerificationGasLimit
         ++ natToBytesBE 16 op.paymasterPostOpGasLimit
         ++ op.paymasterData
  | none => []

/-- Source: `compute_user_op_hash` from `userop/builder.py`, with the keccak-256
primitive (the external `Web3.keccak`) passed in as a parameter.
The two `eth_abi.encode` calls use only static types
(`address`, `uint256`, `bytes32`), whose encoding is the concatenation of
one 32-byte word per argument. -/
def compute_user_op_hash (keccak : Bytes → Bytes) (op : UserOp)
    (entrypoint : Bytes) (chain_id : Nat) : Bytes :=
  let init_code_hash := keccak (userOpInitCode op)
  let call_data_hash := keccak op.callData
  let account_gas_limits :=
    natToBytesBE 16 op.verificationGasLimit ++ natToBytesBE 16 op.callGasLimit
  let gas_fees :=
    natToBytesBE 16 op.maxPriorityFeePerGas ++ natToBytesBE 16 op.maxFeePerGas
  let paymaster_and_data_hash := keccak (userOpPaymasterAndData op)
  let packed :=
    abiAddressWord op.sender ++ abiUint256Word op.nonce
      ++ init_code_hash ++ call_data_hash ++ account_gas_limits
      ++ abiUint256Word op.preVerificationGas ++ gas_fees
      ++ paymaster_and_data_hash
  let inner_hash := keccak packed
  keccak (inner_hash ++ abiAddressWord entrypoint ++ abiUint256Word chain_id)

/-- The init payload exactly as the spec words it: "factory address ++
factoryData, empty when no factory". -/
def specInitPayload (op : UserOp) : Bytes :=
  match op.factory with
  | some f => f ++ op.factoryData
  | none => []

/-- The hash algorithm exactly as the spec states it, steps (a)-(e), to be
compared against `compute_user_op_hash`. -/
def specUserOpHash (keccak : Bytes → Bytes) (op : UserOp)
    (entryPoint : Bytes) (chainId : Nat) : Bytes :=
  let initCodeHash := keccak (specInitPayload op)
  let callDataHash := keccak op.callData
  let gasLimitsPacked :=
    natToBytesBE 16 op.verificationGasLimit ++ natToBytesBE 16 op.callGasLimit
  let feesPacked :=
    natToBytesBE 16 op.maxPriorityFeePerGas ++ natToBytesBE 16 op.maxFeePerGas
  let paymasterHash := keccak (userOpPaymasterAndData op)
  let innerHash := keccak
    (abiAddressWord op.sender ++ abiUint256Word op.nonce
      ++ initCodeHash ++ callDataHash ++ gasLimitsPacked
      ++ abiUint256Word op.preVerificationGas ++ feesPacked ++ paymasterHash)
  keccak (innerHash ++ abiAddressWord entryPoint ++ abiUint256Word chainId)

/-- A constant 32-byte-output hash, standing in for keccak in witnesses. -/
def keccakConst : Bytes → Bytes := fun _ => List.replicate 32 0

/-- A concrete user operation for witnesses: deployed account (no factory),
unsponsored, zero gas fields. -/
def opExample : UserOp :=
  { sender := List.replicate 20 1
    nonce := 0
    factory := none
    factoryData := []
    callData := [1, 2, 3]
    callGasLimit := 0
    verificationGasLimit := 0
    preVerificationGas := 0
    maxFeePerGas := 0
    maxPriorityFeePerGas := 0
    signature := [9, 9]
    paymaster := none
    paymasterData := []
    paymasterVerificationGasLimit := 0
    paymasterPostOpGasLimit := 0 }


end Pactum

namespace Pactum

/-! ## Payment orchestrator state (`services/payment.py`, `chain/scanner.py`)

The Supabase tables `wallet_pending_payments`, `wallet_transactions`,
`wallet_events` and the deployed flag of `wallet_users` become an explicit
`Store`; each service function is state-passing, returning the mutated store
together with the Python return value or raised error. -/

/-- Source: `wallet_pending_payments.status`. -/
inductive PPStatus
  | pending
  | confirmed
  | cancelled
  | expired
  deriving Repr, DecidableEq

/-- One row of `wallet_pending_payments`. -/
structure PendingPayment where
  id : Nat
  userId : Nat
  toAddress : String
  amount : Rat
  memo : Option String
  expiresAt : Nat
  status : PPStatus
  deriving Repr, DecidableEq

/-- Source: `wallet_transactions.type`. -/
inductive TxnType
  | payment
  | withdrawal
  | escrowDeposit
  | contractCall
  | deposit
  deriving Repr, DecidableEq

/-- One row of `wallet_transactions`. -/
structure Txn where
  userId : Nat
  type : TxnType
  amount : Rat
  fromAddress : String
  toAddress : String
  memo : Option String
  txHash : String
  userOpHash : Option String
  status : Option String
  createdAt : Nat
  deriving Repr, DecidableEq

/-- One row of `wallet_events` (payload elided; only type and owner matter
to the claims). -/
structure WalletEvent where
  userId : Nat
  type : String
  deriving Repr, DecidableEq

/-- The durable store plus an instrumentation trace `chainSubmits` recording
the calldata of every user operation handed to `eth_sendUserOperation`. -/
structure Store where
  pending : List PendingPayment
  txns : List Txn
  events : List WalletEvent
  nextPaymentId : Nat
  deployedUpdates : List Nat
  chainSubmits : List String
  deriving Repr, DecidableEq

/-- One row of `wallet_users`, with the spend-limit settings read by
`_check_limits` and `pay`. -/
structure WUser where
  id : Nat
  walletAddress : String
  smartAccountAddress : Option String
  smartAccountDeployed : Bool
  perTransactionLimit : Rat
  dailyLimit : Rat
  requireConfirmationAbove : Rat
  deriving Repr, DecidableEq

/-- Wall-clock seconds: `now` is `datetime.now(timezone.utc)`, `todayStart`
is the midnight used by the daily-limit query. -/
structure Clock where
  now : Nat
  todayStart : Nat
  deriving Repr, DecidableEq

/-- Errors raised by the payment core (Python `ValueError` / `RuntimeError` /
`TimeoutError` messages, with their interpolated values as payloads, plus the
pydantic request-validation rejection). -/
inductive WErr
  | requestValidation
  | smartAccountMissing
  | perTxLimitExceeded (amount limit : Rat)
  | dailyLimitExceeded (limit spentToday : Rat)
  | insufficientBalance (balance amount : Rat)
  | paymentNotFound
  | paymentExpired
  | bundlerError
  | signError
  | userOpFailed (reason : String)
  | settlementTimeout
  deriving Repr, DecidableEq

/-- Source: `eth_getUserOperationReceipt` result (when not null): `success`, nested
`receipt.transactionHash`, failure `reason`. -/
structure Receipt where
  success : Bool
  txHash : Option String
  reason : Option String
  deriving Repr, DecidableEq

/-- Outcome of `wait_for_receipt`: returned receipt, raised
`RuntimeError("UserOp failed: ...")`, or raised `TimeoutError`. -/
inductive WaitResult
  | ok (r : Receipt)
  | failed (reason : String)
  | timedOut
  deriving Repr, DecidableEq

/-- The polling loop body of `wait_for_receipt`: at each attempt, a null or
erroring RPC (`poll = none`) sleeps `interval` and retries while
`elapsed < timeout`; a receipt with `success = false` raises immediately;
a successful receipt is returned. `fuel` bounds the recursion and is chosen
large enough that it never runs out before the timeout check fails. -/
def waitLoop (poll : Nat → Option Receipt) (interval timeout : Rat) :
    Nat → Nat → Rat → WaitResult
  | 0, _, _ => .timedOut
  | fuel + 1, attempt, elapsed =>
    if elapsed < timeout then
      match poll attempt with
      | some r => if r.success then .ok r else .failed (r.reason.getD "unknown")
      | none => waitLoop poll interval timeout fuel (attempt + 1) (elapsed + interval)
    else .timedOut

/-- Iteration bound for `waitLoop`: for a positive interval the loop runs at
most `⌈timeout / interval⌉ ≤ timeout.num * interval.den` times, so this fuel
never runs out before the `elapsed < timeout` check fails. -/
def waitFuel (timeout interval : Rat) : Nat :=
  timeout.num.toNat * interval.den + 1

/-- Source: `wait_for_receipt` from `userop/bundler.py` (the polling RPC is the
oracle `poll`; the call in `_submit_user_op` uses the defaults
`timeout = 60`, `interval = 2.0`). -/
def wait_for_receipt (poll : Nat → Option Receipt) (timeout interval : Rat) :
    WaitResult :=
  waitLoop poll interval timeout (waitFuel timeout interval) 0 0

/-- External chain/relay collaborators for one settlement attempt:
the live balance, whether the three-step sponsorship succeeds, whether the
Privy signer succeeds, the `eth_sendUserOperation` result (`none` = RPC
error), and the receipt-polling oracle. -/
structure ChainEnv where
  balance : Rat
  sponsorOk : Bool
  signOk : Bool
  submitted : Option String
  poll : Nat → Option Receipt

/-- External web3 contract-function ABI encoders (`build_transaction()["data"]`
results); the repository only chooses which function and which arguments. -/
structure Web3Enc where
  transferEnc : String → Int → String
  approveEnc : String → Int → String
  depositEnc : String → String → Int → String
  executeEnc : String → Nat → String → String
  executeBatchEnc : List String → List Nat → List String → String

/-- Source: `USDC_DECIMALS` from `chain/usdc.py`. -/
def USDC_DECIMALS : Nat := 6

/-- Source: `USDC_CONTRACT_ADDRESS` config value (opaque). -/
def USDC_CONTRACT_ADDRESS : String := "0xUSDC"

/-- Source: `PENDING_PAYMENT_TTL_MINUTES` from `services/payment.py`. -/
def PENDING_PAYMENT_TTL_MINUTES : Nat := 10

/-- Python `int(x)`: truncation toward zero. -/
def truncToInt (q : Rat) : Int := if 0 ≤ q then q.floor else q.ceil

/-- Source: `build_transfer_calldata(to, amount)` from `chain/usdc.py`:
`raw_amount = int(amount * 10 ** USDC_DECIMALS)` fed to the transfer encoder. -/
def build_transfer_calldata (enc : Web3Enc) (toAddr : String) (amount : Rat) : String :=
  enc.transferEnc toAddr (truncToInt (amount * (10 : Rat) ^ USDC_DECIMALS))

/-- Source: `build_approve_calldata(spender, amount)` from `chain/usdc.py`
(amount already in raw units). -/
def build_approve_calldata (enc : Web3Enc) (spender : String) (amount : Int) : String :=
  enc.approveEnc spender amount

/-- Source: `build_deposit_calldata(order_id_bytes32, seller, amount)` from
`chain/usdc.py` (amount already in raw units). -/
def build_deposit_calldata (enc : Web3Enc) (orderId seller : String)
    (amount : Int) : String :=
  enc.depositEnc orderId seller amount

/-- Source: `build_execute_calldata(to, value, data)` from `userop/builder.py`. -/
def build_execute_calldata (enc : Web3Enc) (toAddr : String) (value : Nat)
    (data : String) : String :=
  enc.executeEnc toAddr value data

/-- One entry of the `calls` list passed to `build_execute_batch_calldata`. -/
structure BatchCall where
  toAddr : String
  value : Nat
  data : String
  deriving Repr, DecidableEq

/-- Source: `build_execute_batch_calldata(calls)` from `userop/builder.py`:
splits the calls into three parallel lists (`dests`, `values`, `funcs`)
and feeds them to the `executeBatch` encoder. -/
def build_execute_batch_calldata (enc : Web3Enc) (calls : List BatchCall) : String :=
  enc.executeBatchEnc (calls.map (·.toAddr)) (calls.map (·.value)) (calls.map (·.data))

/-- Source: `_get_sender(user)` from `services/payment.py`. -/
def get_sender (user : WUser) : Except WErr String :=
  match user.smartAccountAddress with
  | none => .error .smartAccountMissing
  | some sa => .ok sa

/-- The same-day payment+withdrawal total computed by `_check_limits`
(`created_at >= today_start`, types payment/withdrawal, same user). -/
def todaySpent (user : WUser) (clock : Clock) (st : Store) : Rat :=
  ((st.txns.filter (fun t =>
      decide (t.userId = user.id
        ∧ (t.type = TxnType.payment ∨ t.type = TxnType.withdrawal)
        ∧ clock.todayStart ≤ t.createdAt))).map Txn.amount).sum

/-- Source: `_check_limits(user, amount)` from `services/payment.py`. -/
def check_limits (user : WUser) (clock : Clock) (st : Store) (amount : Rat) :
    Except WErr Unit :=
  if amount > user.perTransactionLimit then
    .error (.perTxLimitExceeded amount user.perTransactionLimit)
  else
    let todayTotal := todaySpent user clock st
    if todayTotal + amount > user.dailyLimit then
      .error (.dailyLimitExceeded user.dailyLimit todayTotal)
    else .ok ()

/-- Source: `_submit_user_op(user, call_data)` from `services/payment.py`:
build the operation, run the three-step sponsorship, sign, submit, await the
receipt; on receipt success flip the deployed flag if this was the first
settlement. The calldata of the submitted operation is appended to the
`chainSubmits` trace at submission time, before the receipt wait. -/
def submit_user_op (env : ChainEnv) (user : WUser) (st : Store)
    (callData : String) : Store × Except WErr (String × String) :=
  match user.smartAccountAddress with
  | none => (st, .error .smartAccountMissing)
  | some _ =>
    if env.sponsorOk = false then (st, .error .bundlerError)
    else if env.signOk = false then (st, .error .signError)
    else
      match env.submitted with
      | none => (st, .error .bundlerError)
      | some userOpHash =>
        match wait_for_receipt env.poll 60 2 with
        | .ok r =>
            if user.smartAccountDeployed then
              ({ st with chainSubmits := st.chainSubmits ++ [callData] },
               .ok (userOpHash, r.txHash.getD userOpHash))
            else
              ({ st with
                  chainSubmits := st.chainSubmits ++ [callData],
                  deployedUpdates := st.deployedUpdates ++ [user.id] },
               .ok (userOpHash, r.txHash.getD userOpHash))
        | .failed reason =>
            ({ st with chainSubmits := st.chainSubmits ++ [callData] },
             .error (.userOpFailed reason))
        | .timedOut =>
            ({ st with chainSubmits := st.chainSubmits ++ [callData] },
             .error .settlementTimeout)

/-- Source: `pay` / `_execute_payment` return values. -/
inductive PayResult
  | pendingConfirmation (paymentId : Nat) (expiresAt : Nat)
  | completed (txHash userOpHash fromAddr toAddr : String) (amount : Rat)
  deriving Repr, DecidableEq

/-- Source: `_execute_payment(user, to_address, amount, memo)` from
`services/payment.py`: build `USDC.transfer` calldata, wrap it in
`SimpleAccount.execute`, submit the operation, and on success record one
`payment` Transaction and one `payment_sent` event. -/
def execute_payment (enc : Web3Enc) (env : ChainEnv) (clock : Clock)
    (user : WUser) (st : Store) (toAddress : String) (amount : Rat)
    (memo : Option String) : Store × Except WErr PayResult :=
  match user.smartAccountAddress with
  | none => (st, .error .smartAccountMissing)
  | some sender =>
    match submit_user_op env user st
        (build_execute_calldata enc USDC_CONTRACT_ADDRESS 0
          (build_transfer_calldata enc toAddress amount)) with
    | (st1, .error e) => (st1, .error e)
    | (st1, .ok (userOpHash, txHash)) =>
      ({ st1 with
          txns := st1.txns ++
            [⟨user.id, .payment, amount, sender, toAddress, memo, txHash,
              some userOpHash, none, clock.now⟩],
          events := st1.events ++ [⟨user.id, "payment_sent"⟩] },
       .ok (.completed txHash userOpHash sender toAddress amount))

/-- Source: `pay(user, to_address, amount, memo)` from `services/payment.py`. -/
def pay (enc : Web3Enc) (env : ChainEnv) (clock : Clock) (user : WUser)
    (st : Store) (toAddress : String) (amount : Rat) (memo : Option String) :
    Store × Except WErr PayResult :=
  match user.smartAccountAddress with
  | none => (st, .error .smartAccountMissing)
  | some _ =>
    match check_limits user clock st amount with
    | .error e => (st, .error e)
    | .ok () =>
      if env.balance < amount then
        (st, .error (.insufficientBalance env.balance amount))
      else if amount > user.requireConfirmationAbove then
        let pid := st.nextPaymentId
        let expiresAt := clock.now + PENDING_PAYMENT_TTL_MINUTES * 60
        let st1 := { st with
          pending := st.pending ++
            [⟨pid, user.id, toAddress, amount, memo, expiresAt, .pending⟩],
          nextPaymentId := pid + 1,
          events := st.events ++ [⟨user.id, "payment_requires_confirmation"⟩] }
        (st1, .ok (.pendingConfirmation pid expiresAt))
      else execute_payment enc env clock user st toAddress amount memo

/-- The `/v1/pay` endpoint: pydantic `PayRequest` rejects `amount <= 0`
(`Field(..., gt=0)`) before the handler calls the service `pay`. -/
def pay_endpoint (enc : Web3Enc) (env : ChainEnv) (clock : Clock) (user : WUser)
    (st : Store) (toAddress : String) (amount : Rat) (memo : Option String) :
    Store × Except WErr PayResult :=
  if amount ≤ 0 then (st, .error .requestValidation)
  else pay enc env clock user st toAddress amount memo

/-- The `wallet_pending_payments` lookup in `confirm_payment` /
`cancel_payment`: first row matching id, user and status pending. -/
def findPending (st : Store) (userId pid : Nat) : Option PendingPayment :=
  st.pending.find? (fun p =>
    decide (p.id = pid ∧ p.userId = userId ∧ p.status = PPStatus.pending))

/-- Source: `update({"status": s}).eq("id", pid)` on `wallet_pending_payments`. -/
def setStatus (st : Store) (pid : Nat) (s : PPStatus) : Store :=
  { st with pending := st.pending.map (fun p =>
      if p.id = pid then { p with status := s } else p) }

/-- Source: `confirm_payment(user, payment_id)` from `services/payment.py`. -/
def confirm_payment (enc : Web3Enc) (env : ChainEnv) (clock : Clock)
    (user : WUser) (st : Store) (pid : Nat) : Store × Except WErr PayResult :=
  match findPending st user.id pid with
  | none => (st, .error .paymentNotFound)
  | some payment =>
    if payment.expiresAt < clock.now then
      (setStatus st pid .expired, .error .paymentExpired)
    else
      match execute_payment enc env clock user st
          payment.toAddress payment.amount payment.memo with
      | (st1, .error e) => (st1, .error e)
      | (st1, .ok r) => (setStatus st1 pid .confirmed, .ok r)

/-- Source: `escrow_deposit` return value. -/
structure EscrowResult where
  txHash : String
  userOpHash : String
  deriving Repr, DecidableEq

/-- Source: `escrow_deposit(user, escrow_contract, usdc_contract, order_id_bytes32,
seller, amount)` from `services/payment.py`: balance check, then one
`executeBatch` operation wrapping the approve and the deposit, submitted as
a single user operation. -/
def escrow_deposit (enc : Web3Enc) (env : ChainEnv) (clock : Clock)
    (user : WUser) (st : Store) (escrowContract usdcContract orderId
    seller : String) (amount : Rat) : Store × Except WErr EscrowResult :=
  match user.smartAccountAddress with
  | none => (st, .error .smartAccountMissing)
  | some sender =>
    if env.balance < amount then
      (st, .error (.insufficientBalance env.balance amount))
    else
      match submit_user_op env user st
          (build_execute_batch_calldata enc
            [⟨usdcContract, 0, build_approve_calldata enc escrowContract
                (truncToInt (amount * (10 : Rat) ^ USDC_DECIMALS))⟩,
             ⟨escrowContract, 0, build_deposit_calldata enc orderId seller
                (truncToInt (amount * (10 : Rat) ^ USDC_DECIMALS))⟩]) with
      | (st1, .error e) => (st1, .error e)
      | (st1, .ok (userOpHash, txHash)) =>
        ({ st1 with
            txns := st1.txns ++
              [⟨user.id, .escrowDeposit, amount, sender, escrowContract,
                some ("order:" ++ orderId ++ " seller:" ++ seller), txHash,
                some userOpHash, none, clock.now⟩],
            events := st1.events ++ [⟨user.id, "escrow_deposit"⟩] },
         .ok ⟨txHash, userOpHash⟩)

/-! ## Deposit scanner (`chain/scanner.py`) -/

/-- One decoded USDC `Transfer` event from `get_transfer_events`. -/
structure TransferEvt where
  fromAddr : String
  toAddr : String
  value : Rat
  txHash : String
  blockNumber : Nat
  deriving Repr, DecidableEq

/-- External collaborators of one scanner tick: the chain head, the event-log
query, the address map of `_get_user_addresses` (already lowercased keys)
and Python's `str.lower`. -/
structure ScanEnv where
  latest : Nat
  transferEvents : Nat → Nat → List TransferEvt
  userOf : String → Option Nat
  lowerAddr : String → String

/-- Whether a `wallet_transactions` row with this `tx_hash` already exists
(the idempotency probe in `scan_deposits`). -/
def hasTxHash (st : Store) (h : String) : Bool :=
  st.txns.any (fun t => t.txHash == h)

/-- The per-event body of the `scan_deposits` loop: skip events not addressed
to a known account; skip events whose `tx_hash` already has a row; otherwise
insert one `deposit` Transaction and one `deposit_received` event. -/
def ingestEvent (senv : ScanEnv) (clock : Clock) (st : Store)
    (evt : TransferEvt) : Store :=
  match senv.userOf (senv.lowerAddr evt.toAddr) with
  | none => st
  | some uid =>
    if hasTxHash st evt.txHash then st
    else
      { st with
        txns := st.txns ++
          [⟨uid, .deposit, evt.value, evt.fromAddr, evt.toAddr, none,
            evt.txHash, none, some "completed", clock.now⟩],
        events := st.events ++ [⟨uid, "deposit_received"⟩] }

/-- One `scan_deposits` tick from `chain/scanner.py`: first run anchors the
cursor at the current head without scanning; otherwise scan the bounded
window `[last+1, min(latest, last+1+2000)]`, ingest each matching transfer
idempotently, and advance the cursor to the window end. -/
def scan_deposits (senv : ScanEnv) (clock : Clock) (last : Option Nat)
    (st : Store) : Option Nat × Store :=
  match last with
  | none => (some senv.latest, st)
  | some lastB =>
    if senv.latest ≤ lastB then (some lastB, st)
    else
      (some (min senv.latest (lastB + 1 + 2000)),
       (senv.transferEvents (lastB + 1)
           (min senv.latest (lastB + 1 + 2000))).foldl
         (ingestEvent senv clock) st)

/-- Number of `wallet_transactions` rows carrying a given `tx_hash`. -/
def txnCountWithHash (st : Store) (h : String) : Nat :=
  (st.txns.filter (fun t => t.txHash == h)).length

/-! ## Concrete instances used by witnesses -/

/-- Constant-output stand-ins for the external web3 ABI encoders. -/
def encEx : Web3Enc :=
  ⟨fun _ _ => "tEnc", fun _ _ => "aEnc", fun _ _ _ => "dEnc",
   fun _ _ _ => "eEnc", fun _ _ _ => "bEnc"⟩

/-- A receipt-polling oracle that never finds the receipt. -/
def pollNoneEx : Nat → Option Receipt := fun _ => none

/-- A failed on-chain receipt. -/
def receiptFailEx : Receipt := ⟨false, none, some "reverted"⟩

/-- A receipt-polling oracle returning a failed receipt at once. -/
def pollFailEx : Nat → Option Receipt := fun _ => some receiptFailEx

/-- A successful on-chain receipt. -/
def receiptOkEx : Receipt := ⟨true, some "0xtx", none⟩

/-- A receipt-polling oracle returning a successful receipt at once. -/
def pollOkEx : Nat → Option Receipt := fun _ => some receiptOkEx

/-- A chain environment in which every step succeeds. -/
def envOkEx : ChainEnv := ⟨100, true, true, some "0xop", pollOkEx⟩

/-- A chain environment in which the sponsorship step fails. -/
def envSponsorFailEx : ChainEnv := ⟨100, false, true, some "0xop", pollOkEx⟩

/-- A fixed wall clock. -/
def clockEx : Clock := ⟨1000, 0⟩

/-- A registered user with a deployed smart account and the default limits
(per-transaction 10, daily 50, confirmation threshold 5). -/
def userEx : WUser := ⟨1, "0xeoa", some "0xsa", true, 10, 50, 5⟩

/-- The empty store. -/
def stEmpty : Store := ⟨[], [], [], 1, [], []⟩

/-- An unexpired pending payment of `userEx`. -/
def ppEx : PendingPayment := ⟨7, 1, "0xdst", 8, some "memo", 1600, .pending⟩

/-- A store holding only `ppEx`. -/
def stPendingEx : Store := ⟨[ppEx], [], [], 8, [], []⟩

/-- A pending payment of `userEx` whose expiry has passed at `clockEx`. -/
def ppExpiredEx : PendingPayment := ⟨7, 1, "0xdst", 8, some "memo", 900, .pending⟩

/-- A store holding only `ppExpiredEx`. -/
def stExpiredEx : Store := ⟨[ppExpiredEx], [], [], 8, [], []⟩

/-- An already-cancelled payment of `userEx`. -/
def ppCancelledEx : PendingPayment := ⟨7, 1, "0xdst", 8, some "memo", 1600, .cancelled⟩

/-- A store holding only `ppCancelledEx`. -/
def stCancelledEx : Store := ⟨[ppCancelledEx], [], [], 8, [], []⟩

/-- A transfer event addressed to `userEx`'s smart account. -/
def evtEx : TransferEvt := ⟨"0xfrom", "0xsa", 3, "0xdup", 5⟩

/-- A scanner environment always returning `evtEx`. -/
def senvEx : ScanEnv :=
  ⟨10, fun _ _ => [evtEx], fun a => if a = "0xsa" then some 1 else none, fun a => a⟩

/-- A deposit row already ingested for `evtEx`'s transaction hash. -/
def depTxnEx : Txn :=
  ⟨1, .deposit, 3, "0xfrom", "0xsa", none, "0xdup", none, some "completed", 500⟩

/-- A store already holding `depTxnEx`. -/
def stDepEx : Store := ⟨[], [depTxnEx], [], 1, [], []⟩

/-! ## Theorems -/

/-- C1: `compute_user_op_hash` returns exactly 32 bytes, computed by the
spec's five-step algorithm, and repeated calls on identical inputs agree.
`hk` states that the external keccak primitive returns 32 bytes; `hf`
excludes the unreachable representation of "no factory" as an explicit
zero address (the code and the spec both treat it as absent). -/
theorem compute_user_op_hash_spec (keccak : Bytes → Bytes)
    (hk : ∀ b, (keccak b).length = 32)
    (op : UserOp) (entryPoint : Bytes) (chainId : Nat)
    (hf : op.factory ≠ some zeroAddress20) :
    (compute_user_op_hash keccak op entryPoint chainId).length = 32
    ∧ compute_user_op_hash keccak op entryPoint chainId
        = specUserOpHash keccak op entryPoint chainId
    ∧ compute_user_op_hash keccak op entryPoint chainId
        = compute_user_op_hash keccak op entryPoint chainId := by
  refine ⟨hk _, ?_, rfl⟩
  have hinit : userOpInitCode op = specInitPayload op := by
    unfold userOpInitCode specInitPayload
    cases hfac : op.factory with
    | none => rfl
    | some f =>
        have : f ≠ zeroAddress20 := by
          intro h; exact hf (by rw [hfac, h])
        simp [this]
  unfold compute_user_op_hash specUserOpHash
  rw [hinit]

/-- Witness for C1 at a concrete hash function and operation. -/
theorem compute_user_op_hash_spec_witness :
    (compute_user_op_hash keccakConst opExample (List.replicate 20 2) 84532).length = 32
    ∧ compute_user_op_hash keccakConst opExample (List.replicate 20 2) 84532
        = specUserOpHash keccakConst opExample (List.replicate 20 2) 84532
    ∧ compute_user_op_hash keccakConst opExample (List.replicate 20 2) 84532
        = compute_user_op_hash keccakConst opExample (List.replicate 20 2) 84532 :=
  compute_user_op_hash_spec keccakConst
    (fun b => by simp [keccakConst])
    opExample (List.replicate 20 2) 84532
    (by simp [opExample])

/-- C10: the hash never reads the signature field — replacing the signature
by any value leaves `compute_user_op_hash` unchanged. -/
theorem compute_user_op_hash_signature_independent
    (keccak : Bytes → Bytes) (op : UserOp) (entryPoint : Bytes)
    (chainId : Nat) (s : Bytes) :
    compute_user_op_hash keccak { op with signature := s } entryPoint chainId
      = compute_user_op_hash keccak op entryPoint chainId := rfl


/-- C4: the pay operation validates `amount > 0` — the pydantic
`PayRequest` (`Field(..., gt=0)`) rejects every non-positive amount before
any limit, balance or chain interaction, leaving the store untouched. -/
theorem pay_endpoint_rejects_nonpositive (enc : Web3Enc) (env : ChainEnv)
    (clock : Clock) (user : WUser) (st : Store) (toAddr : String)
    (amount : Rat) (memo : Option String) (h : amount ≤ 0) :
    pay_endpoint enc env clock user st toAddr amount memo
      = (st, .error .requestValidation) := by
  unfold pay_endpoint
  rw [if_pos h]

/-- Witness for C4 at amount `-3`. -/
theorem pay_endpoint_rejects_nonpositive_witness :
    pay_endpoint encEx envOkEx clockEx userEx stEmpty "0xdst" (-3) none
      = (stEmpty, .error .requestValidation) :=
  pay_endpoint_rejects_nonpositive encEx envOkEx clockEx userEx stEmpty
    "0xdst" (-3) none (by decide)

/-- C5: a pay call with amount above the per-transaction limit fails with a
validation error carrying the limit and mutates no state at all — the store
(pending payments, transactions, events, chain trace) is returned unchanged. -/
theorem pay_per_tx_limit_rejected (enc : Web3Enc) (env : ChainEnv)
    (clock : Clock) (user : WUser) (st : Store) (toAddr : String)
    (amount : Rat) (memo : Option String) (sa : String)
    (hsa : user.smartAccountAddress = some sa)
    (hlim : user.perTransactionLimit < amount) :
    pay enc env clock user st toAddr amount memo
      = (st, .error (.perTxLimitExceeded amount user.perTransactionLimit)) := by
  unfold pay check_limits
  simp [hsa, gt_iff_lt, hlim]

/-- Witness for C5: amount 20 against `userEx`'s limit 10. -/
theorem pay_per_tx_limit_rejected_witness :
    pay encEx envOkEx clockEx userEx stEmpty "0xdst" 20 none
      = (stEmpty, .error (.perTxLimitExceeded 20 10)) :=
  pay_per_tx_limit_rejected encEx envOkEx clockEx userEx stEmpty "0xdst" 20
    none "0xsa" rfl (by decide)


/-- Helper: every outcome of `submit_user_op` leaves the store unchanged or
appends exactly the submitted calldata (plus possibly the deployed-flag
update) — it never writes pending payments, transactions or events. -/
theorem submitOp_cases (env : ChainEnv) (user : WUser) (st : Store)
    (cd : String) :
    (submit_user_op env user st cd).1 = st
    ∨ (submit_user_op env user st cd).1
        = { st with chainSubmits := st.chainSubmits ++ [cd] }
    ∨ (submit_user_op env user st cd).1
        = { st with
            chainSubmits := st.chainSubmits ++ [cd],
            deployedUpdates := st.deployedUpdates ++ [user.id] } := by
  unfold submit_user_op
  cases hsa : user.smartAccountAddress with
  | none => exact Or.inl rfl
  | some sa =>
    cases hsp : env.sponsorOk with
    | false => exact Or.inl rfl
    | true =>
      cases hsg : env.signOk with
      | false => exact Or.inl rfl
      | true =>
        cases hsub : env.submitted with
        | none => exact Or.inl rfl
        | some uoh =>
          cases hw : wait_for_receipt env.poll 60 2 with
          | ok r =>
            cases hd : user.smartAccountDeployed with
            | false => exact Or.inr (Or.inr rfl)
            | true => exact Or.inr (Or.inl rfl)
          | failed reason => exact Or.inr (Or.inl rfl)
          | timedOut => exact Or.inr (Or.inl rfl)

/-- Helper: `submit_user_op` never touches the pending-payments table. -/
theorem submitOp_pending_eq (env : ChainEnv) (user : WUser) (st : Store)
    (cd : String) :
    ((submit_user_op env user st cd).1).pending = st.pending := by
  rcases submitOp_cases env user st cd with h | h | h <;> rw [h]

/-- Helper: `submit_user_op` never inserts a transaction row. -/
theorem submitOp_txns_eq (env : ChainEnv) (user : WUser) (st : Store)
    (cd : String) :
    ((submit_user_op env user st cd).1).txns = st.txns := by
  rcases submitOp_cases env user st cd with h | h | h <;> rw [h]

/-- Helper: the fully successful run of `submit_user_op`. -/
theorem submitOp_success (env : ChainEnv) (user : WUser) (st : Store)
    (cd sa uoh : String) (r : Receipt)
    (hsa : user.smartAccountAddress = some sa)
    (hsp : env.sponsorOk = true) (hsg : env.signOk = true)
    (hsub : env.submitted = some uoh)
    (hw : wait_for_receipt env.poll 60 2 = WaitResult.ok r) :
    submit_user_op env user st cd
      = (if user.smartAccountDeployed then
            { st with chainSubmits := st.chainSubmits ++ [cd] }
         else
            { st with
              chainSubmits := st.chainSubmits ++ [cd],
              deployedUpdates := st.deployedUpdates ++ [user.id] },
         .ok (uoh, r.txHash.getD uoh)) := by
  unfold submit_user_op
  rw [hsa, hsp, hsg, hsub, hw]
  cases user.smartAccountDeployed <;> rfl

/-- Helper: a successful submission implies the receipt wait returned a
receipt. -/
theorem submitOp_ok_wait (env : ChainEnv) (user : WUser) (st : Store)
    (cd : String) (x : String × String)
    (h : (submit_user_op env user st cd).2 = .ok x) :
    ∃ r, wait_for_receipt env.poll 60 2 = WaitResult.ok r := by
  unfold submit_user_op at h
  cases hsa : user.smartAccountAddress with
  | none => rw [hsa] at h; simp at h
  | some sa =>
    rw [hsa] at h
    cases hsp : env.sponsorOk with
    | false => rw [hsp] at h; simp at h
    | true =>
      rw [hsp] at h
      cases hsg : env.signOk with
      | false => rw [hsg] at h; simp at h
      | true =>
        rw [hsg] at h
        cases hsub : env.submitted with
        | none => rw [hsub] at h; simp at h
        | some uoh =>
          cases hw : wait_for_receipt env.poll 60 2 with
          | ok r => exact ⟨r, rfl⟩
          | failed reason => rw [hsub, hw] at h; simp at h
          | timedOut => rw [hsub, hw] at h; simp at h

/-- Helper: `waitLoop` only returns a receipt whose `success` flag is true. -/
theorem waitLoop_ok_success (poll : Nat → Option Receipt) (i t : Rat) :
    ∀ (fuel a : Nat) (e : Rat) (r : Receipt),
      waitLoop poll i t fuel a e = WaitResult.ok r → r.success = true := by
  intro fuel
  induction fuel with
  | zero =>
    intro a e r h
    unfold waitLoop at h
    exact WaitResult.noConfusion h
  | succ n ih =>
    intro a e r h
    unfold waitLoop at h
    by_cases hc : e < t
    · rw [if_pos hc] at h
      split at h
      · split at h
        · injection h with h2
          subst h2
          assumption
        · exact WaitResult.noConfusion h
      · exact ih _ _ _ h
    · rw [if_neg hc] at h
      exact WaitResult.noConfusion h

/-- Helper: `wait_for_receipt` only returns receipts with `success = true`. -/
theorem wait_receipt_ok_success (poll : Nat → Option Receipt) (t i : Rat)
    (r : Receipt) (h : wait_for_receipt poll t i = WaitResult.ok r) :
    r.success = true := by
  unfold wait_for_receipt at h
  exact waitLoop_ok_success poll i t _ _ _ _ h

/-- Helper: `_execute_payment` never touches the pending-payments table. -/
theorem execPayment_pending_eq (enc : Web3Enc) (env : ChainEnv)
    (clock : Clock) (user : WUser) (st : Store) (a : String) (b : Rat)
    (c : Option String) :
    ((execute_payment enc env clock user st a b c).1).pending = st.pending := by
  unfold execute_payment
  cases hsa : user.smartAccountAddress with
  | none => rfl
  | some sa =>
    have hp := submitOp_pending_eq env user st
      (build_execute_calldata enc USDC_CONTRACT_ADDRESS 0
        (build_transfer_calldata enc a b))
    rcases hs : submit_user_op env user st
        (build_execute_calldata enc USDC_CONTRACT_ADDRESS 0
          (build_transfer_calldata enc a b)) with ⟨st1, r⟩
    rw [hs] at hp
    rcases r with e | ⟨uoh, txh⟩
    · exact hp
    · exact hp

/-- Helper: a failed `_execute_payment` inserts no transaction row. -/
theorem execPayment_txns_of_error (enc : Web3Enc) (env : ChainEnv)
    (clock : Clock) (user : WUser) (st : Store) (a : String) (b : Rat)
    (c : Option String) (e : WErr)
    (h : (execute_payment enc env clock user st a b c).2 = .error e) :
    ((execute_payment enc env clock user st a b c).1).txns = st.txns := by
  have ht := submitOp_txns_eq env user st
    (build_execute_calldata enc USDC_CONTRACT_ADDRESS 0
      (build_transfer_calldata enc a b))
  unfold execute_payment at h ⊢
  cases hsa : user.smartAccountAddress with
  | none => rfl
  | some sa =>
    rw [hsa] at h
    rcases hs : submit_user_op env user st
        (build_execute_calldata enc USDC_CONTRACT_ADDRESS 0
          (build_transfer_calldata enc a b)) with ⟨st1, r⟩
    rw [hs] at ht h
    rcases r with e2 | ⟨uoh, txh⟩
    · exact ht
    · simp at h

/-- Helper: a successful `_execute_payment` implies a successful
submission. -/
theorem execPayment_ok_submit (enc : Web3Enc) (env : ChainEnv)
    (clock : Clock) (user : WUser) (st : Store) (a : String) (b : Rat)
    (c : Option String) (v : PayResult)
    (h : (execute_payment enc env clock user st a b c).2 = .ok v) :
    ∃ x, (submit_user_op env user st
        (build_execute_calldata enc USDC_CONTRACT_ADDRESS 0
          (build_transfer_calldata enc a b))).2 = .ok x := by
  unfold execute_payment at h
  cases hsa : user.smartAccountAddress with
  | none => rw [hsa] at h; simp at h
  | some sa =>
    rw [hsa] at h
    rcases hs : submit_user_op env user st
        (build_execute_calldata enc USDC_CONTRACT_ADDRESS 0
          (build_transfer_calldata enc a b)) with ⟨st1, r⟩
    rw [hs] at h
    rcases r with e | ⟨uoh, txh⟩
    · simp at h
    · exact ⟨(uoh, txh), rfl⟩


/-- C2: a pay call with amount above the confirmation threshold that passes
the limit and balance checks persists exactly one pending PendingPayment
expiring ten minutes (600 s) after now, creates no Transaction, performs no
chain interaction, and returns the pending-confirmation result carrying the
payment id and expiry. -/
theorem pay_above_threshold_pending (enc : Web3Enc) (env : ChainEnv)
    (clock : Clock) (user : WUser) (st : Store) (toAddr : String)
    (amount : Rat) (memo : Option String) (sa : String)
    (hsa : user.smartAccountAddress = some sa)
    (h1 : amount ≤ user.perTransactionLimit)
    (h2 : todaySpent user clock st + amount ≤ user.dailyLimit)
    (h3 : amount ≤ env.balance)
    (h4 : user.requireConfirmationAbove < amount) :
    pay enc env clock user st toAddr amount memo
      = ({ st with
            pending := st.pending ++
              [⟨st.nextPaymentId, user.id, toAddr, amount, memo,
                clock.now + 600, PPStatus.pending⟩],
            nextPaymentId := st.nextPaymentId + 1,
            events := st.events ++
              [⟨user.id, "payment_requires_confirmation"⟩] },
          .ok (.pendingConfirmation st.nextPaymentId (clock.now + 600)))
    ∧ ((pay enc env clock user st toAddr amount memo).1).txns = st.txns
    ∧ ((pay enc env clock user st toAddr amount memo).1).chainSubmits
        = st.chainSubmits := by
  have hmain : pay enc env clock user st toAddr amount memo
      = ({ st with
            pending := st.pending ++
              [⟨st.nextPaymentId, user.id, toAddr, amount, memo,
                clock.now + 600, PPStatus.pending⟩],
            nextPaymentId := st.nextPaymentId + 1,
            events := st.events ++
              [⟨user.id, "payment_requires_confirmation"⟩] },
          .ok (.pendingConfirmation st.nextPaymentId (clock.now + 600))) := by
    unfold pay check_limits
    rw [hsa]
    simp [not_lt.mpr h1, not_lt.mpr h2, not_lt.mpr h3, h4, gt_iff_lt,
      PENDING_PAYMENT_TTL_MINUTES]
  exact ⟨hmain, by rw [hmain], by rw [hmain]⟩

/-- Witness for C2: amount 8 with threshold 5, limit 10, balance 100. -/
theorem pay_above_threshold_pending_witness :
    pay encEx envOkEx clockEx userEx stEmpty "0xdst" 8 none
      = ({ stEmpty with
            pending := stEmpty.pending ++
              [⟨stEmpty.nextPaymentId, userEx.id, "0xdst", 8, none,
                clockEx.now + 600, PPStatus.pending⟩],
            nextPaymentId := stEmpty.nextPaymentId + 1,
            events := stEmpty.events ++
              [⟨userEx.id, "payment_requires_confirmation"⟩] },
          .ok (.pendingConfirmation stEmpty.nextPaymentId (clockEx.now + 600)))
    ∧ ((pay encEx envOkEx clockEx userEx stEmpty "0xdst" 8 none).1).txns
        = stEmpty.txns
    ∧ ((pay encEx envOkEx clockEx userEx stEmpty "0xdst" 8 none).1).chainSubmits
        = stEmpty.chainSubmits :=
  pay_above_threshold_pending encEx envOkEx clockEx userEx stEmpty "0xdst" 8
    none "0xsa" rfl (by decide) (by norm_num [todaySpent, stEmpty, userEx])
    (by decide) (by decide)

/-- C9: if settlement raises during confirm, the error propagates and the
pending-payments table is left exactly as it was — the payment stays
pending and a later confirm of the same id can retry. -/
theorem confirm_failed_settlement_keeps_pending (enc : Web3Enc)
    (env : ChainEnv) (clock : Clock) (user : WUser) (st : Store) (pid : Nat)
    (p : PendingPayment) (e : WErr)
    (hfind : findPending st user.id pid = some p)
    (hexp : ¬ p.expiresAt < clock.now)
    (herr : (execute_payment enc env clock user st
        p.toAddress p.amount p.memo).2 = .error e) :
    (confirm_payment enc env clock user st pid).2 = .error e
    ∧ ((confirm_payment enc env clock user st pid).1).pending
        = st.pending := by
  have hpend := execPayment_pending_eq enc env clock user st
    p.toAddress p.amount p.memo
  unfold confirm_payment
  simp only [hfind]
  rw [if_neg hexp]
  rcases hex : execute_payment enc env clock user st
      p.toAddress p.amount p.memo with ⟨st1, r⟩
  rw [hex] at herr hpend
  rcases r with e2 | v
  · have he : e2 = e := by simpa using herr
    subst he
    exact ⟨rfl, hpend⟩
  · simp at herr

/-- Witness for C9: the sponsorship step fails while confirming `ppEx`. -/
theorem confirm_failed_settlement_keeps_pending_witness :
    (confirm_payment encEx envSponsorFailEx clockEx userEx stPendingEx 7).2
        = .error .bundlerError
    ∧ ((confirm_payment encEx envSponsorFailEx clockEx userEx stPendingEx 7).1).pending
        = stPendingEx.pending :=
  confirm_failed_settlement_keeps_pending encEx envSponsorFailEx clockEx
    userEx stPendingEx 7 ppEx .bundlerError (by decide) (by decide) rfl

/-- C3: confirm requires a pending, unexpired payment: when no pending row
matches the id and user, it fails with the store untouched (so re-confirming
a confirmed/cancelled/expired payment never re-executes); when the matching
pending row is expired it fails and flips exactly that row to expired,
touching neither transactions nor the chain; when pending and unexpired it
settles using the stored destination, amount and memo and flips the row to
confirmed. -/
theorem confirm_payment_spec (enc : Web3Enc) (env : ChainEnv) (clock : Clock)
    (user : WUser) (st : Store) (pid : Nat) :
    ((∀ q ∈ st.pending,
        ¬(q.id = pid ∧ q.userId = user.id ∧ q.status = PPStatus.pending)) →
      confirm_payment enc env clock user st pid
        = (st, .error .paymentNotFound))
    ∧ (∀ p, findPending st user.id pid = some p → p.expiresAt < clock.now →
        confirm_payment enc env clock user st pid
          = (setStatus st pid PPStatus.expired, .error .paymentExpired)
        ∧ ((confirm_payment enc env clock user st pid).1).txns = st.txns
        ∧ ((confirm_payment enc env clock user st pid).1).chainSubmits
            = st.chainSubmits)
    ∧ (∀ p sa uoh r, findPending st user.id pid = some p →
        ¬ p.expiresAt < clock.now →
        user.smartAccountAddress = some sa →
        env.sponsorOk = true → env.signOk = true →
        env.submitted = some uoh →
        wait_for_receipt env.poll 60 2 = WaitResult.ok r →
        (confirm_payment enc env clock user st pid).2
            = .ok (.completed (r.txHash.getD uoh) uoh sa p.toAddress p.amount)
        ∧ ((confirm_payment enc env clock user st pid).1).pending
            = st.pending.map (fun q =>
                if q.id = pid then { q with status := PPStatus.confirmed }
                else q)
        ∧ ((confirm_payment enc env clock user st pid).1).txns
            = st.txns ++
              [⟨user.id, TxnType.payment, p.amount, sa, p.toAddress, p.memo,
                r.txHash.getD uoh, some uoh, none, clock.now⟩]) := by
  refine ⟨?_, ?_, ?_⟩
  · intro hAll
    have hnone : findPending st user.id pid = none := by
      unfold findPending
      rw [List.find?_eq_none]
      intro q hq
      simp only [decide_eq_true_eq]
      exact hAll q hq
    unfold confirm_payment
    rw [hnone]
  · intro p hfind hexp
    have hmain : confirm_payment enc env clock user st pid
        = (setStatus st pid PPStatus.expired, .error .paymentExpired) := by
      unfold confirm_payment
      simp only [hfind]
      rw [if_pos hexp]
    exact ⟨hmain, by rw [hmain]; rfl, by rw [hmain]; rfl⟩
  · intro p sa uoh r hfind hexp hsa hsp hsg hsub hw
    have hsubmit := submitOp_success env user st
      (build_execute_calldata enc USDC_CONTRACT_ADDRESS 0
        (build_transfer_calldata enc p.toAddress p.amount)) sa uoh r hsa hsp
      hsg hsub hw
    unfold confirm_payment execute_payment
    simp only [hfind]
    rw [if_neg hexp]
    rw [hsa, hsubmit]
    cases user.smartAccountDeployed <;> exact ⟨rfl, rfl, rfl⟩

/-- Witness for C3: a cancelled payment is rejected, an expired one is
rejected and flipped, a pending unexpired one settles and confirms. -/
theorem confirm_payment_spec_witness :
    confirm_payment encEx envOkEx clockEx userEx stCancelledEx 7
        = (stCancelledEx, .error .paymentNotFound)
    ∧ confirm_payment encEx envOkEx clockEx userEx stExpiredEx 7
        = (setStatus stExpiredEx 7 PPStatus.expired, .error .paymentExpired)
    ∧ (confirm_payment encEx envOkEx clockEx userEx stPendingEx 7).2
        = .ok (.completed "0xtx" "0xop" "0xsa" "0xdst" 8) :=
  ⟨(confirm_payment_spec encEx envOkEx clockEx userEx stCancelledEx 7).1
      (by decide),
   ((confirm_payment_spec encEx envOkEx clockEx userEx stExpiredEx 7).2.1
      ppExpiredEx (by decide) (by decide)).1,
   ((confirm_payment_spec encEx envOkEx clockEx userEx stPendingEx 7).2.2
      ppEx "0xsa" "0xop" receiptOkEx (by decide) (by decide) (by decide)
      (by decide) (by decide) (by decide) (by decide)).1⟩


/-- Helper: the fuel bound at the default timeout and interval covers the
30 polling attempts. -/
theorem waitFuel_60_2 : 31 ≤ waitFuel 60 2 + 0 := by decide

/-- Helper: with every attempt before the 30th unanswered, the 60 s / 2 s
loop runs out of time. -/
theorem waitLoop_60_2_timeout (poll : Nat → Option Receipt)
    (hnone : ∀ j, j < 30 → poll j = none) :
    ∀ (fuel a : Nat), 31 ≤ fuel + a →
      waitLoop poll 2 60 fuel a ((2 * a : Nat) : Rat) = WaitResult.timedOut := by
  intro fuel
  induction fuel with
  | zero => intro a _; rfl
  | succ n ih =>
    intro a ha
    unfold waitLoop
    by_cases hc : ((2 * a : Nat) : Rat) < 60
    · rw [if_pos hc]
      have ha30 : a < 30 := by
        have h2 : (2 * a : Nat) < 60 := by exact_mod_cast hc
        omega
      rw [hnone a ha30]
      have hcast : ((2 * a : Nat) : Rat) + 2 = ((2 * (a + 1) : Nat) : Rat) := by
        push_cast
        ring
      rw [hcast]
      exact ih (a + 1) (by omega)
    · rw [if_neg hc]

/-- Helper: when attempt `k < 30` is the first answered one, the 60 s / 2 s
loop stops there with the receipt's verdict. -/
theorem waitLoop_60_2_reach (poll : Nat → Option Receipt) (k : Nat)
    (r : Receipt) (hk : k < 30) (hnone : ∀ j, j < k → poll j = none)
    (hpk : poll k = some r) :
    ∀ (fuel a : Nat), 31 ≤ fuel + a → a ≤ k →
      waitLoop poll 2 60 fuel a ((2 * a : Nat) : Rat)
        = if r.success then WaitResult.ok r
          else WaitResult.failed (r.reason.getD "unknown") := by
  intro fuel
  induction fuel with
  | zero => intro a ha hak; omega
  | succ n ih =>
    intro a ha hak
    unfold waitLoop
    have hc : ((2 * a : Nat) : Rat) < 60 := by
      have h2 : (2 * a : Nat) < 60 := by omega
      exact_mod_cast h2
    rw [if_pos hc]
    rcases Nat.lt_or_ge a k with hlt | hge
    · rw [hnone a hlt]
      have hcast : ((2 * a : Nat) : Rat) + 2 = ((2 * (a + 1) : Nat) : Rat) := by
        push_cast
        ring
      rw [hcast]
      exact ih (a + 1) (by omega) (by omega)
    · have hak2 : a = k := le_antisymm hak hge
      subst hak2
      rw [hpk]

/-- Helper: total timeout of `wait_for_receipt` at the default parameters. -/
theorem wait_60_2_all_none (poll : Nat → Option Receipt)
    (hnone : ∀ j, j < 30 → poll j = none) :
    wait_for_receipt poll 60 2 = WaitResult.timedOut := by
  have h := waitLoop_60_2_timeout poll hnone (waitFuel 60 2) 0 waitFuel_60_2
  have h0 : ((2 * 0 : Nat) : Rat) = 0 := by norm_num
  rw [h0] at h
  unfold wait_for_receipt
  exact h

/-- Helper: first answered attempt decides `wait_for_receipt` at the
default parameters. -/
theorem wait_60_2_first_receipt (poll : Nat → Option Receipt) (k : Nat)
    (r : Receipt) (hk : k < 30) (hnone : ∀ j, j < k → poll j = none)
    (hpk : poll k = some r) :
    wait_for_receipt poll 60 2
      = if r.success then WaitResult.ok r
        else WaitResult.failed (r.reason.getD "unknown") := by
  have h := waitLoop_60_2_reach poll k r hk hnone hpk (waitFuel 60 2) 0
    waitFuel_60_2 (Nat.zero_le k)
  have h0 : ((2 * 0 : Nat) : Rat) = 0 := by norm_num
  rw [h0] at h
  unfold wait_for_receipt
  exact h

/-- C6: `wait_for_receipt` keeps polling at the fixed interval while the
receipt is unknown and times out after 30 attempts; a receipt with
`success = false` stops it immediately with a failure; a successful receipt
is returned; the timeout outcome is distinct from the failure outcome; and
the settlement pipeline records a Transaction row only when the receipt
wait returned `success = true` — every error leaves the transactions table
unchanged. -/
theorem awaitSettlement_spec :
    (∀ poll : Nat → Option Receipt, (∀ j, j < 30 → poll j = none) →
        wait_for_receipt poll 60 2 = WaitResult.timedOut)
    ∧ (∀ (poll : Nat → Option Receipt) (k : Nat) (r : Receipt), k < 30 →
        (∀ j, j < k → poll j = none) → poll k = some r →
        r.success = false →
        wait_for_receipt poll 60 2
          = WaitResult.failed (r.reason.getD "unknown"))
    ∧ (∀ (poll : Nat → Option Receipt) (k : Nat) (r : Receipt), k < 30 →
        (∀ j, j < k → poll j = none) → poll k = some r →
        r.success = true →
        wait_for_receipt poll 60 2 = WaitResult.ok r)
    ∧ (∀ reason, WaitResult.failed reason ≠ WaitResult.timedOut)
    ∧ (∀ (enc : Web3Enc) (env : ChainEnv) (clock : Clock) (user : WUser)
        (st : Store) (a : String) (b : Rat) (c : Option String) (e : WErr),
        (execute_payment enc env clock user st a b c).2 = .error e →
        ((execute_payment enc env clock user st a b c).1).txns = st.txns)
    ∧ (∀ (enc : Web3Enc) (env : ChainEnv) (clock : Clock) (user : WUser)
        (st : Store) (a : String) (b : Rat) (c : Option String),
        ((execute_payment enc env clock user st a b c).1).txns ≠ st.txns →
        ∃ r, wait_for_receipt env.poll 60 2 = WaitResult.ok r
          ∧ r.success = true) := by
  refine ⟨wait_60_2_all_none, ?_, ?_, ?_, ?_, ?_⟩
  · intro poll k r hk hn hp hs
    have h := wait_60_2_first_receipt poll k r hk hn hp
    simpa [hs] using h
  · intro poll k r hk hn hp hs
    have h := wait_60_2_first_receipt poll k r hk hn hp
    simpa [hs] using h
  · intro reason h
    exact WaitResult.noConfusion h
  · intro enc env clock user st a b c e h
    exact execPayment_txns_of_error enc env clock user st a b c e h
  · intro enc env clock user st a b c hne
    cases hres : (execute_payment enc env clock user st a b c).2 with
    | error e =>
      exact absurd (execPayment_txns_of_error enc env clock user st a b c e
        hres) hne
    | ok v =>
      obtain ⟨x, hx⟩ := execPayment_ok_submit enc env clock user st a b c v
        hres
      obtain ⟨r, hr⟩ := submitOp_ok_wait env user st _ x hx
      exact ⟨r, hr, wait_receipt_ok_success env.poll 60 2 r hr⟩

/-- Witness for C6: a silent oracle times out, an immediately failing
receipt fails, an immediately successful receipt is returned, the two
error outcomes differ, a sponsorship failure leaves the transactions table
unchanged, and a changed transactions table implies a successful receipt. -/
theorem awaitSettlement_spec_witness :
    wait_for_receipt pollNoneEx 60 2 = WaitResult.timedOut
    ∧ wait_for_receipt pollFailEx 60 2 = WaitResult.failed "reverted"
    ∧ wait_for_receipt pollOkEx 60 2 = WaitResult.ok receiptOkEx
    ∧ WaitResult.failed "reverted" ≠ WaitResult.timedOut
    ∧ ((execute_payment encEx envSponsorFailEx clockEx userEx stEmpty
          "0xdst" 3 none).1).txns = stEmpty.txns
    ∧ (∃ r, wait_for_receipt envOkEx.poll 60 2 = WaitResult.ok r
        ∧ r.success = true) :=
  ⟨awaitSettlement_spec.1 pollNoneEx (fun _ _ => rfl),
   awaitSettlement_spec.2.1 pollFailEx 0 receiptFailEx (by decide)
     (fun j hj => absurd hj (Nat.not_lt_zero j)) rfl rfl,
   awaitSettlement_spec.2.2.1 pollOkEx 0 receiptOkEx (by decide)
     (fun j hj => absurd hj (Nat.not_lt_zero j)) rfl rfl,
   awaitSettlement_spec.2.2.2.1 "reverted",
   awaitSettlement_spec.2.2.2.2.1 encEx envSponsorFailEx clockEx userEx
     stEmpty "0xdst" 3 none WErr.bundlerError rfl,
   awaitSettlement_spec.2.2.2.2.2 encEx envOkEx clockEx userEx stEmpty
     "0xdst" 3 none (by decide)⟩


/-- Helper: appending one transaction row changes the per-hash count by one
exactly for its own hash. -/
theorem count_append_one (st : Store) (t : Txn) (es : List WalletEvent)
    (h : String) :
    txnCountWithHash
      { st with
        txns := st.txns ++ [t],
        events := st.events ++ es } h
      = txnCountWithHash st h + (if (t.txHash == h) then 1 else 0) := by
  unfold txnCountWithHash
  rw [List.filter_append, List.length_append]
  cases hb : (t.txHash == h) <;> simp [List.filter, hb]

/-- Helper: a hash with no row yet has count zero. -/
theorem count_zero_of_not_hasTxHash (st : Store) (h : String)
    (hh : ¬ hasTxHash st h = true) : txnCountWithHash st h = 0 := by
  unfold txnCountWithHash
  rw [List.length_eq_zero, List.filter_eq_nil_iff]
  intro t ht hb
  unfold hasTxHash at hh
  exact hh (List.any_eq_true.mpr ⟨t, ht, hb⟩)

/-- Helper: one ingested event can only add a row with a hash that had no
row yet, so per hash the count stays, or reaches at most one. -/
theorem ingest_count_le (senv : ScanEnv) (clock : Clock) (st : Store)
    (evt : TransferEvt) (h : String) :
    txnCountWithHash (ingestEvent senv clock st evt) h
      ≤ max (txnCountWithHash st h) 1
    ∧ (1 ≤ txnCountWithHash st h →
       txnCountWithHash (ingestEvent senv clock st evt) h
         = txnCountWithHash st h) := by
  unfold ingestEvent
  split
  · exact ⟨le_max_left _ _, fun _ => rfl⟩
  · split
    · exact ⟨le_max_left _ _, fun _ => rfl⟩
    · rename_i uid hu hh
      rw [count_append_one]
      cases hb : (evt.txHash == h) with
      | false => simp
      | true =>
        have heq : evt.txHash = h := beq_iff_eq.mp hb
        subst heq
        rw [count_zero_of_not_hasTxHash st evt.txHash hh]
        simp


/-- Helper: folding a batch of events never pushes the per-hash count past
one and never adds to a hash that already has a row. -/
theorem scanFold_count (senv : ScanEnv) (clock : Clock) (h : String) :
    ∀ (evts : List TransferEvt) (st : Store),
      txnCountWithHash (evts.foldl (ingestEvent senv clock) st) h
        ≤ max (txnCountWithHash st h) 1
      ∧ (1 ≤ txnCountWithHash st h →
         txnCountWithHash (evts.foldl (ingestEvent senv clock) st) h
           = txnCountWithHash st h) := by
  intro evts
  induction evts with
  | nil => intro st; exact ⟨le_max_left _ _, fun _ => rfl⟩
  | cons e es ih =>
    intro st
    rw [List.foldl_cons]
    obtain ⟨hle, heq⟩ := ingest_count_le senv clock st e h
    obtain ⟨ihle, iheq⟩ := ih (ingestEvent senv clock st e)
    constructor
    · exact le_trans ihle (max_le hle (le_max_right _ _))
    · intro hpos
      have h1 : txnCountWithHash (ingestEvent senv clock st e) h
          = txnCountWithHash st h := heq hpos
      rw [iheq (by rw [h1]; exact hpos), h1]

/-- C7: deposit ingestion is idempotent on the transaction hash — a scanner
tick inserts nothing for a hash that already has a Transaction row, and in
any case leaves at most one row per hash starting from at most one, so
ingesting the same chainTxId across two ticks or overlapping windows yields
exactly one row. -/
theorem scan_deposits_idempotent (senv : ScanEnv) (clock : Clock)
    (last : Option Nat) (st : Store) (h : String) :
    (1 ≤ txnCountWithHash st h →
      txnCountWithHash (scan_deposits senv clock last st).2 h
        = txnCountWithHash st h)
    ∧ txnCountWithHash (scan_deposits senv clock last st).2 h
        ≤ max (txnCountWithHash st h) 1 := by
  unfold scan_deposits
  split
  · exact ⟨fun _ => rfl, le_max_left _ _⟩
  · split
    · exact ⟨fun _ => rfl, le_max_left _ _⟩
    · rename_i lastB hlt
      obtain ⟨hle, heq⟩ := scanFold_count senv clock h
        (senv.transferEvents (lastB + 1) (min senv.latest (lastB + 1 + 2000)))
        st
      exact ⟨heq, hle⟩

/-- Witness for C7: a tick over a window replaying the already-ingested
transfer `evtEx` leaves the store's single row for that hash unchanged. -/
theorem scan_deposits_idempotent_witness :
    (txnCountWithHash (scan_deposits senvEx clockEx (some 3) stDepEx).2 "0xdup"
        = txnCountWithHash stDepEx "0xdup")
    ∧ txnCountWithHash (scan_deposits senvEx clockEx (some 3) stDepEx).2 "0xdup"
        ≤ max (txnCountWithHash stDepEx "0xdup") 1 :=
  ⟨(scan_deposits_idempotent senvEx clockEx (some 3) stDepEx "0xdup").1
      (by decide),
   (scan_deposits_idempotent senvEx clockEx (some 3) stDepEx "0xdup").2⟩

/-- Helper: once the operation is handed to the bundler, exactly one entry
is appended to the submission trace, whatever the receipt wait returns. -/
theorem submitOp_chainSubmits_of_submitted (env : ChainEnv) (user : WUser)
    (st : Store) (cd sa uoh : String)
    (hsa : user.smartAccountAddress = some sa)
    (hsp : env.sponsorOk = true) (hsg : env.signOk = true)
    (hsub : env.submitted = some uoh) :
    ((submit_user_op env user st cd).1).chainSubmits
      = st.chainSubmits ++ [cd] := by
  unfold submit_user_op
  rw [hsa, hsp, hsg, hsub]
  cases hw : wait_for_receipt env.poll 60 2 with
  | ok r => cases hd : user.smartAccountDeployed <;> rfl
  | failed reason => rfl
  | timedOut => rfl


/-- C8: escrowDeposit builds a single executeBatch operation whose calldata
wraps exactly two inner calls in order — the token approve of the escrow
contract and the escrow deposit(orderId, seller, amount) — and submits
exactly one operation; over any chain environment at most one operation is
ever submitted, so approve can never execute without deposit. -/
theorem escrow_deposit_single_batch (enc : Web3Enc) (env : ChainEnv)
    (clock : Clock) (user : WUser) (st : Store)
    (escrowContract usdcContract orderId seller : String) (amount : Rat)
    (sa uoh : String)
    (hsa : user.smartAccountAddress = some sa)
    (hbal : ¬ env.balance < amount)
    (hsp : env.sponsorOk = true) (hsg : env.signOk = true)
    (hsub : env.submitted = some uoh) :
    (((escrow_deposit enc env clock user st escrowContract usdcContract
        orderId seller amount).1).chainSubmits
      = st.chainSubmits ++
        [build_execute_batch_calldata enc
          [⟨usdcContract, 0, build_approve_calldata enc escrowContract
              (truncToInt (amount * (10 : Rat) ^ USDC_DECIMALS))⟩,
           ⟨escrowContract, 0, build_deposit_calldata enc orderId seller
              (truncToInt (amount * (10 : Rat) ^ USDC_DECIMALS))⟩]])
    ∧ (build_execute_batch_calldata enc
        [⟨usdcContract, 0, build_approve_calldata enc escrowContract
            (truncToInt (amount * (10 : Rat) ^ USDC_DECIMALS))⟩,
         ⟨escrowContract, 0, build_deposit_calldata enc orderId seller
            (truncToInt (amount * (10 : Rat) ^ USDC_DECIMALS))⟩]
        = enc.executeBatchEnc [usdcContract, escrowContract] [0, 0]
            [build_approve_calldata enc escrowContract
              (truncToInt (amount * (10 : Rat) ^ USDC_DECIMALS)),
             build_deposit_calldata enc orderId seller
              (truncToInt (amount * (10 : Rat) ^ USDC_DECIMALS))])
    ∧ (∀ env2 : ChainEnv,
        ((escrow_deposit enc env2 clock user st escrowContract usdcContract
            orderId seller amount).1).chainSubmits = st.chainSubmits
        ∨ ((escrow_deposit enc env2 clock user st escrowContract usdcContract
            orderId seller amount).1).chainSubmits
          = st.chainSubmits ++
            [build_execute_batch_calldata enc
              [⟨usdcContract, 0, build_approve_calldata enc escrowContract
                  (truncToInt (amount * (10 : Rat) ^ USDC_DECIMALS))⟩,
               ⟨escrowContract, 0, build_deposit_calldata enc orderId seller
                  (truncToInt (amount * (10 : Rat) ^ USDC_DECIMALS))⟩]]) := by
  refine ⟨?_, rfl, ?_⟩
  · have hcs := submitOp_chainSubmits_of_submitted env user st
      (build_execute_batch_calldata enc
        [⟨usdcContract, 0, build_approve_calldata enc escrowContract
            (truncToInt (amount * (10 : Rat) ^ USDC_DECIMALS))⟩,
         ⟨escrowContract, 0, build_deposit_calldata enc orderId seller
            (truncToInt (amount * (10 : Rat) ^ USDC_DECIMALS))⟩])
      sa uoh hsa hsp hsg hsub
    unfold escrow_deposit
    simp only [hsa]
    rw [if_neg hbal]
    rcases hs : submit_user_op env user st
        (build_execute_batch_calldata enc
          [⟨usdcContract, 0, build_approve_calldata enc escrowContract
              (truncToInt (amount * (10 : Rat) ^ USDC_DECIMALS))⟩,
           ⟨escrowContract, 0, build_deposit_calldata enc orderId seller
              (truncToInt (amount * (10 : Rat) ^ USDC_DECIMALS))⟩])
        with ⟨st1, r⟩
    have hst1 : (submit_user_op env user st
        (build_execute_batch_calldata enc
          [⟨usdcContract, 0, build_approve_calldata enc escrowContract
              (truncToInt (amount * (10 : Rat) ^ USDC_DECIMALS))⟩,
           ⟨escrowContract, 0, build_deposit_calldata enc orderId seller
              (truncToInt (amount * (10 : Rat) ^ USDC_DECIMALS))⟩])).1
        = st1 := by rw [hs]
    rw [hst1] at hcs
    rcases r with e | ⟨uoh2, txh⟩
    · exact hcs
    · exact hcs
  · intro env2
    have hc := submitOp_cases env2 user st
      (build_execute_batch_calldata enc
        [⟨usdcContract, 0, build_approve_calldata enc escrowContract
            (truncToInt (amount * (10 : Rat) ^ USDC_DECIMALS))⟩,
         ⟨escrowContract, 0, build_deposit_calldata enc orderId seller
            (truncToInt (amount * (10 : Rat) ^ USDC_DECIMALS))⟩])
    unfold escrow_deposit
    simp only [hsa]
    by_cases hb2 : env2.balance < amount
    · rw [if_pos hb2]
      exact Or.inl rfl
    · rw [if_neg hb2]
      rcases hs : submit_user_op env2 user st
          (build_execute_batch_calldata enc
            [⟨usdcContract, 0, build_approve_calldata enc escrowContract
                (truncToInt (amount * (10 : Rat) ^ USDC_DECIMALS))⟩,
             ⟨escrowContract, 0, build_deposit_calldata enc orderId seller
                (truncToInt (amount * (10 : Rat) ^ USDC_DECIMALS))⟩])
          with ⟨st1, r⟩
      have hst1 : (submit_user_op env2 user st
          (build_execute_batch_calldata enc
            [⟨usdcContract, 0, build_approve_calldata enc escrowContract
                (truncToInt (amount * (10 : Rat) ^ USDC_DECIMALS))⟩,
             ⟨escrowContract, 0, build_deposit_calldata enc orderId seller
                (truncToInt (amount * (10 : Rat) ^ USDC_DECIMALS))⟩])).1
          = st1 := by rw [hs]
      rw [hst1] at hc
      rcases r with e | ⟨uoh2, txh⟩ <;>
        rcases hc with hc | hc | hc <;> rw [hc] <;>
        first
          | exact Or.inl rfl
          | exact Or.inr rfl

/-- Witness for C8 at a concrete escrow deposit of 3 USDC. -/
theorem escrow_deposit_single_batch_witness :
    (((escrow_deposit encEx envOkEx clockEx userEx stEmpty "0xesc" "0xusdc"
        "0xorder" "0xsell" 3).1).chainSubmits
      = stEmpty.chainSubmits ++
        [build_execute_batch_calldata encEx
          [⟨"0xusdc", 0, build_approve_calldata encEx "0xesc"
              (truncToInt (3 * (10 : Rat) ^ USDC_DECIMALS))⟩,
           ⟨"0xesc", 0, build_deposit_calldata encEx "0xorder" "0xsell"
              (truncToInt (3 * (10 : Rat) ^ USDC_DECIMALS))⟩]])
    ∧ (build_execute_batch_calldata encEx
        [⟨"0xusdc", 0, build_approve_calldata encEx "0xesc"
            (truncToInt (3 * (10 : Rat) ^ USDC_DECIMALS))⟩,
         ⟨"0xesc", 0, build_deposit_calldata encEx "0xorder" "0xsell"
            (truncToInt (3 * (10 : Rat) ^ USDC_DECIMALS))⟩]
        = encEx.executeBatchEnc ["0xusdc", "0xesc"] [0, 0]
            [build_approve_calldata encEx "0xesc"
              (truncToInt (3 * (10 : Rat) ^ USDC_DECIMALS)),
             build_deposit_calldata encEx "0xorder" "0xsell"
              (truncToInt (3 * (10 : Rat) ^ USDC_DECIMALS))]) :=
  ⟨(escrow_deposit_single_batch encEx envOkEx clockEx userEx stEmpty "0xesc"
      "0xusdc" "0xorder" "0xsell" 3 "0xsa" "0xop" rfl (by decide) rfl rfl
      rfl).1,
   (escrow_deposit_single_batch encEx envOkEx clockEx userEx stEmpty "0xesc"
      "0xusdc" "0xorder" "0xsell" 3 "0xsa" "0xop" rfl (by decide) rfl rfl
      rfl).2.1⟩

end Pactum
